import Mathlib

/-!
Shallow embedding of the `regis_incidencias_chepen` front-end core:
the incident list filter and render (IncidentList component) and the
authentication context (AuthContext: auth-state-change handling,
profile loading, sign-up).

Strings are Lean `String`s; the JavaScript `String.prototype.includes`
is modelled as list-infix on the character data, and `toLowerCase` as a
character-wise lowercase map.  React state updates are modelled as pure
state-transition functions on an explicit state record; backend calls
are oracles passed in as function arguments (for reads) or explicit
result values (for the external credential registration), and the
mutations the component issues against the row store are recorded both
as an updated store and as an explicit effect trace.
-/

namespace Chepen

/-- Incident status values, the string union
`pending | in_progress | resolved | rejected` of the database schema. -/
inductive Status where
  | pending
  | in_progress
  | resolved
  | rejected
deriving DecidableEq

/-- The string form of a status, as stored in `incidents.status` and
compared by `incident.status === statusFilter`. -/
def statusStr : Status → String
  | .pending => "pending"
  | .in_progress => "in_progress"
  | .resolved => "resolved"
  | .rejected => "rejected"

/-- Incident priority values `low | medium | high | urgent`. -/
inductive Priority where
  | low
  | medium
  | high
  | urgent
deriving DecidableEq

/-- Profile role values, `citizen | authority`. -/
inductive Role where
  | citizen
  | authority
deriving DecidableEq

/-- A row of the `profiles` table: id, email, full_name, phone, role,
is_deleted, deleted_at. -/
structure ProfileRow where
  id : String
  email : String
  full_name : String
  phone : Option String
  role : Role
  is_deleted : Bool
  deleted_at : Option Nat
deriving DecidableEq

/-- A row of the `incident_categories` table. -/
structure Category where
  id : String
  name : String
  color : String
deriving DecidableEq

/-- A row of the `incidents` table joined with its category and its
reporting profile (`profiles!incidents_user_id_fkey`).  The joined
profile is optional, matching the runtime guard `incident.profiles &&`
in the component. -/
structure Incident where
  id : String
  title : String
  description : String
  address : Option String
  status : Status
  priority : Priority
  incident_date : Nat
  created_at : Nat
  user_id : String
  incident_categories : Category
  profiles : Option ProfileRow
deriving DecidableEq

/-- JavaScript `s.toLowerCase()`: lowercase every character. -/
def lower (s : String) : String :=
  ⟨s.data.map Char.toLower⟩

/-- JavaScript `haystack.includes(needle)`: the needle occurs as a
contiguous substring, i.e. its character list occurs as an in-order
contiguous segment of the haystack's character list. -/
def includes (haystack needle : String) : Bool :=
  decide (needle.data <:+: haystack.data)

/-- The text predicate of `filterIncidents` for a (truthy) search term:
`incident.title.toLowerCase().includes(searchTerm.toLowerCase()) ||
 incident.description.toLowerCase().includes(...) ||
 incident.address?.toLowerCase().includes(...)`.
An absent address makes the third disjunct undefined, hence falsy. -/
def textMatch (inc : Incident) (searchTerm : String) : Bool :=
  includes (lower inc.title) (lower searchTerm) ||
  includes (lower inc.description) (lower searchTerm) ||
  (match inc.address with
   | some a => includes (lower a) (lower searchTerm)
   | none => false)

/-- `filterIncidents` from the IncidentList component: starting from a
copy of the list, apply the text filter when `searchTerm` is truthy
(non-empty), then the status filter when `statusFilter !== 'all'`. -/
def filterIncidents (incidents : List Incident)
    (searchTerm statusFilter : String) : List Incident :=
  let filtered := incidents
  let filtered :=
    if searchTerm = "" then filtered
    else filtered.filter (fun inc => textMatch inc searchTerm)
  let filtered :=
    if statusFilter = "all" then filtered
    else filtered.filter (fun inc => statusStr inc.status == statusFilter)
  filtered

/-- The spec's wording of the text-filter keep condition: the lowercased
search term is a substring of the lowercased title, description, or
address (an absent address never matches). -/
def specTextKeeps (inc : Incident) (searchTerm : String) : Prop :=
  (lower searchTerm).data <:+: (lower inc.title).data ∨
  (lower searchTerm).data <:+: (lower inc.description).data ∨
  (∃ a, inc.address = some a ∧ (lower searchTerm).data <:+: (lower a).data)

/-- The `statusLabels` record of the component. -/
def statusLabel : Status → String
  | .pending => "Pendiente"
  | .in_progress => "En Proceso"
  | .resolved => "Resuelta"
  | .rejected => "Rechazada"

/-- The `statusColors` record of the component. -/
def statusColor : Status → String
  | .pending => "bg-yellow-100 text-yellow-800"
  | .in_progress => "bg-blue-100 text-blue-800"
  | .resolved => "bg-green-100 text-green-800"
  | .rejected => "bg-red-100 text-red-800"

/-- The `priorityLabels` record of the component. -/
def priorityLabel : Priority → String
  | .low => "Baja"
  | .medium => "Media"
  | .high => "Alta"
  | .urgent => "Urgente"

/-- The `priorityColors` record of the component. -/
def priorityColor : Priority → String
  | .low => "bg-gray-100 text-gray-800"
  | .medium => "bg-blue-100 text-blue-800"
  | .high => "bg-orange-100 text-orange-800"
  | .urgent => "bg-red-100 text-red-800"

/-- The data rendered for one incident row of the list view. -/
structure RenderedRow where
  categoryName : String
  categoryBg : String
  categoryColor : String
  statusLabelText : String
  statusColorClass : String
  priorityLabelText : String
  priorityColorClass : String
  title : String
  description : String
  addressLine : Option String
  dateValue : Nat
  reporterLine : Option String
deriving DecidableEq

/-- The row markup of `IncidentList` as a pure function of the viewing
user's profile (`useAuth().profile`) and the incident record.  The
reporter line renders only under
`profile?.role === 'authority' && incident.profiles`. -/
def renderRow (viewer : Option ProfileRow) (inc : Incident) : RenderedRow where
  categoryName := inc.incident_categories.name
  categoryBg := inc.incident_categories.color ++ "20"
  categoryColor := inc.incident_categories.color
  statusLabelText := statusLabel inc.status
  statusColorClass := statusColor inc.status
  priorityLabelText := priorityLabel inc.priority
  priorityColorClass := priorityColor inc.priority
  title := inc.title
  description := inc.description
  addressLine := inc.address
  dateValue := inc.incident_date
  reporterLine :=
    match viewer with
    | some v =>
      if v.role = .authority then
        match inc.profiles with
        | some rp => some ("Reportado por: " ++ rp.full_name)
        | none => none
      else none
    | none => none

/-- Replace the reporting profile's `full_name` field (when a reporting
profile is joined), leaving everything else of the incident unchanged.
Used to state that a render is independent of the reporter's name. -/
def setReporterName (inc : Incident) (name : String) : Incident :=
  { inc with profiles := inc.profiles.map (fun rp => { rp with full_name := name }) }

/-! ## Authentication context -/

/-- The backend-issued user inside a session (`session.user`). -/
structure SessUser where
  id : String
deriving DecidableEq

/-- A backend session; only its user is consumed by the context. -/
structure Session where
  user : SessUser
deriving DecidableEq

/-- The React state of `AuthProvider`: the four `useState` cells
`user`, `profile`, `session`, `loading`. -/
structure AuthState where
  user : Option SessUser
  profile : Option ProfileRow
  session : Option Session
  loading : Bool
deriving DecidableEq

/-- `loadProfile(userId)`: query the profile row by id (`maybeSingle`,
so success may carry no row); on success store the result in `profile`;
on error only log; in both cases finally set `loading` to false.  The
outcome of the backend read is the oracle `fetchProfile`. -/
def loadProfile (fetchProfile : String → Except String (Option ProfileRow))
    (userId : String) (st : AuthState) : AuthState :=
  match fetchProfile userId with
  | .ok data => { st with profile := data, loading := false }
  | .error _ => { st with loading := false }

/-- The `onAuthStateChange` handler: store the session, derive `user`
via `session?.user ?? null`, then either reload the profile for the
session's user or, with no session, clear the profile and stop
loading. -/
def onAuthStateChange (fetchProfile : String → Except String (Option ProfileRow))
    (session : Option Session) (st : AuthState) : AuthState :=
  let st1 := { st with session := session, user := session.map (fun s => s.user) }
  match session with
  | some s => loadProfile fetchProfile s.user.id st1
  | none => { st1 with profile := none, loading := false }

/-- A registered credential holder as returned by the backend's
credential registration (`data.user`). -/
structure AuthUser where
  id : String
deriving DecidableEq

/-- The row store consumed by `signUp`: the `profiles` table. -/
structure Backend where
  profiles : List ProfileRow
deriving DecidableEq

/-- One backend mutation issued by `signUp`, in issue order. -/
inductive Effect where
  | authRegister (email password : String)
  | profileUpdate (id full_name : String) (phone : Option String)
  | profileInsert (row : ProfileRow)
deriving DecidableEq

/-- What a `signUp` run produced: the surfaced result, the trace of
backend mutations it issued, and the resulting row store. -/
structure SignUpResult where
  result : Except String Unit
  effects : List Effect
  backend : Backend

/-- `maybeSingle()`: zero rows give `ok none`, one row gives it, more
than one row is an error. -/
def maybeSingle {α : Type} (rows : List α) : Except String (Option α) :=
  match rows with
  | [] => .ok none
  | [a] => .ok (some a)
  | _ => .error "multiple rows returned"

/-- JavaScript `error.message || fallback`: an empty (falsy) message is
replaced by the fallback. -/
def orElseMsg (m fallback : String) : String :=
  if m = "" then fallback else m

/-- The duplicate-account error message thrown by `signUp`. -/
def dupMsg : String := "Este correo electrónico ya está registrado"

/-- The generic `signUp` failure message. -/
def signUpFallback : String := "Error al registrarse"

/-- JavaScript `phone || null`: an absent or empty phone becomes null. -/
def phoneOrNull : Option String → Option String
  | none => none
  | some p => if p = "" then none else some p

/-- The part of `signUp` after the duplicate check: call
`supabase.auth.signUp` (outcome supplied as the `authResult` oracle;
issuing the call is the first recorded effect), then, when a user came
back, either revive the soft-deleted profile in place
(`update({full_name, phone: phone || null, is_deleted: false,
deleted_at: null}).eq('id', existingProfile.id)`) or insert a fresh
`citizen` profile row keyed by the new credential id. -/
def signUpAfterCheck (authResult : Except String (Option AuthUser))
    (email password fullName : String) (phone : Option String)
    (bk : Backend) (existingProfile : Option ProfileRow) : SignUpResult :=
  match authResult with
  | .error e => ⟨.error (orElseMsg e signUpFallback), [.authRegister email password], bk⟩
  | .ok none => ⟨.ok (), [.authRegister email password], bk⟩
  | .ok (some u) =>
    match existingProfile with
    | some p =>
      if p.is_deleted then
        ⟨.ok (),
         [.authRegister email password, .profileUpdate p.id fullName (phoneOrNull phone)],
         ⟨bk.profiles.map (fun r =>
            if r.id == p.id then
              { r with full_name := fullName, phone := phoneOrNull phone,
                       is_deleted := false, deleted_at := none }
            else r)⟩⟩
      else
        ⟨.ok (),
         [.authRegister email password,
          .profileInsert ⟨u.id, email, fullName, phoneOrNull phone, .citizen, false, none⟩],
         ⟨bk.profiles ++ [⟨u.id, email, fullName, phoneOrNull phone, .citizen, false, none⟩]⟩⟩
    | none =>
      ⟨.ok (),
       [.authRegister email password,
        .profileInsert ⟨u.id, email, fullName, phoneOrNull phone, .citizen, false, none⟩],
       ⟨bk.profiles ++ [⟨u.id, email, fullName, phoneOrNull phone, .citizen, false, none⟩]⟩⟩

/-- `signUp(email, password, fullName, phone?)`: look up an existing
profile by email with `maybeSingle`; when one exists and is not
soft-deleted, throw the duplicate-account error (rethrown through the
catch wrapper `error.message || 'Error al registrarse'`); otherwise
continue with credential registration and the profile write. -/
def signUp (authResult : Except String (Option AuthUser))
    (email password fullName : String) (phone : Option String)
    (bk : Backend) : SignUpResult :=
  match maybeSingle (bk.profiles.filter (fun p => p.email == email)) with
  | .error e => ⟨.error (orElseMsg e signUpFallback), [], bk⟩
  | .ok existingProfile =>
    match existingProfile with
    | some p =>
      if p.is_deleted then
        signUpAfterCheck authResult email password fullName phone bk (some p)
      else
        ⟨.error (orElseMsg dupMsg signUpFallback), [], bk⟩
    | none => signUpAfterCheck authResult email password fullName phone bk none

/-! ## Concrete sample data (used by scenario conjuncts, witnesses and
counterexamples) -/

/-- A sample category row. -/
def sampleCategory : Category := ⟨"cat-1", "Alumbrado", "#ff0000"⟩

/-- A sample incident with a given id and status. -/
def sampleIncident (i : String) (s : Status) : Incident :=
  ⟨i, "Titulo " ++ i, "Descripcion " ++ i, none, s, .medium, 0, 0, "user-1",
   sampleCategory, none⟩

/-- First pending incident of the status-filter scenario. -/
def sampleP1 : Incident := sampleIncident "i1" .pending

/-- The resolved incident of the status-filter scenario. -/
def sampleR2 : Incident := sampleIncident "i2" .resolved

/-- Second pending incident of the status-filter scenario. -/
def sampleP3 : Incident := sampleIncident "i3" .pending

/-- A viewing profile with the `citizen` role. -/
def citizenViewer : ProfileRow :=
  ⟨"u-cit", "cit@example.com", "Carla", none, .citizen, false, none⟩

/-- A viewing profile with the `authority` role. -/
def authorityViewer : ProfileRow :=
  ⟨"u-aut", "aut@example.com", "Ana", none, .authority, false, none⟩

/-- A reporting profile joined onto an incident. -/
def reporterProfile : ProfileRow :=
  ⟨"u-rep", "rep@example.com", "Rosa", some "999111222", .citizen, false, none⟩

/-- An incident carrying a joined reporting profile. -/
def incWithReporter : Incident :=
  ⟨"i-9", "Bache", "Calle rota", some "Av. Lima 100", .pending, .high, 5, 5,
   "u-rep", sampleCategory, some reporterProfile⟩

/-- The profile loaded for the previously signed-in user. -/
def prevProfile : ProfileRow :=
  ⟨"user-a", "a@example.com", "Alicia", none, .citizen, false, none⟩

/-- Auth state with user-a signed in and their profile loaded. -/
def prevState : AuthState :=
  ⟨some ⟨"user-a"⟩, some prevProfile, some ⟨⟨"user-a"⟩⟩, false⟩

/-- A profile fetch that fails every time. -/
def failFetch : String → Except String (Option ProfileRow) :=
  fun _ => .error "network error"

/-- A fresh session for a different user, user-b. -/
def newSession : Session := ⟨⟨"user-b"⟩⟩

/-- An existing non-deleted profile row holding an email. -/
def dupRow : ProfileRow :=
  ⟨"id-1", "dup@example.com", "Old Name", none, .citizen, false, none⟩

/-- A row store containing only `dupRow`. -/
def bkDup : Backend := ⟨[dupRow]⟩

/-- A soft-deleted profile row. -/
def delRow : ProfileRow :=
  ⟨"id-2", "del@example.com", "Old Deleted", some "000", .citizen, true, some 3⟩

/-- A row store containing only `delRow`. -/
def bkDel : Backend := ⟨[delRow]⟩

/-- A soft-deleted profile row whose role is `authority`. -/
def authRow : ProfileRow :=
  ⟨"id-3", "auth@example.com", "Old Authority", some "111", .authority, true, some 7⟩

/-- A row store containing only `authRow`. -/
def bkAuth : Backend := ⟨[authRow]⟩

/-! ## Helper lemmas -/

/-- The lowercase of the empty string has empty character data. -/
theorem lower_empty_data : (lower "").data = ([] : List Char) := by decide

/-- The empty search term's lowercase is a substring of anything. -/
theorem lower_empty_sub (l : List Char) : (lower "").data <:+: l := by
  rw [lower_empty_data]
  exact ⟨[], l, rfl⟩

/-- The code's text predicate agrees with the spec's wording. -/
theorem textMatch_iff (inc : Incident) (s : String) :
    textMatch inc s = true ↔ specTextKeeps inc s := by
  cases haddr : inc.address with
  | none => simp [textMatch, specTextKeeps, includes, haddr]
  | some a =>
    simp [textMatch, specTextKeeps, includes, haddr]
    tauto

/-- No status string is the sentinel `"all"`. -/
theorem statusStr_ne_all (s : Status) : statusStr s ≠ "all" := by
  cases s <;> decide

/-- `statusStr` reflects boolean equality of statuses. -/
theorem statusStr_beq (a b : Status) : (statusStr a == statusStr b) = (a == b) := by
  cases a <;> cases b <;> decide

/-- A duplicate-account message survives the catch wrapper unchanged. -/
theorem orElseMsg_dup : orElseMsg dupMsg signUpFallback = dupMsg := by decide

/-! ## Claim theorems -/

/-- C6: filtering with the empty search term and status `"all"` returns
the source list itself, element for element in the same order. -/
theorem filter_empty_all_id (L : List Incident) :
    filterIncidents L "" "all" = L := by
  simp [filterIncidents]

/-- C4: the text filter (status left at `"all"`) keeps an incident if
and only if the lowercased search term is a substring of the lowercased
title, description, or address; an absent address never matches, and
the empty search term keeps everything (it is a substring of all). -/
theorem filter_text_spec (L : List Incident) (s : String) (inc : Incident) :
    inc ∈ filterIncidents L s "all" ↔ inc ∈ L ∧ specTextKeeps inc s := by
  by_cases hs : s = ""
  · subst hs
    rw [filter_empty_all_id]
    exact ⟨fun h => ⟨h, Or.inl (lower_empty_sub _)⟩, fun h => h.1⟩
  · have hfil : filterIncidents L s "all" = L.filter (fun i => textMatch i s) := by
      simp [filterIncidents, hs]
    rw [hfil, List.mem_filter, textMatch_iff]

/-- C5: the text filter and the status filter commute — filtering by
search term `s` and then by status equals filtering by status and then
by `s` — and their sequential composition is exactly the combined
(conjunctive) filter pass. -/
theorem filters_commute (L : List Incident) (s st : String) :
    filterIncidents (filterIncidents L s "all") "" st
      = filterIncidents (filterIncidents L "" st) s "all"
    ∧ filterIncidents (filterIncidents L s "all") "" st
      = filterIncidents L s st := by
  by_cases hs : s = "" <;> by_cases hst : st = "all" <;>
    simp [filterIncidents, hs, hst, List.filter_filter, Bool.and_comm]

/-- C7: with an empty search term, a concrete (non-sentinel) status
filter returns exactly the incidents whose status equals that value,
as an order-preserving subsequence of the source list; in particular,
on statuses [pending, resolved, pending] the filter for `pending`
returns the two pending incidents in original relative order. -/
theorem filter_status_exact (L : List Incident) (s : Status) :
    filterIncidents L "" (statusStr s) = L.filter (fun i => i.status == s)
    ∧ (filterIncidents L "" (statusStr s)).Sublist L
    ∧ filterIncidents [sampleP1, sampleR2, sampleP3] "" (statusStr .pending)
        = [sampleP1, sampleP3] := by
  have h1 : filterIncidents L "" (statusStr s)
      = L.filter (fun i => statusStr i.status == statusStr s) := by
    simp [filterIncidents, statusStr_ne_all s]
  have h2 : filterIncidents L "" (statusStr s) = L.filter (fun i => i.status == s) := by
    rw [h1]
    exact List.filter_congr (fun i _ => statusStr_beq i.status s)
  refine ⟨h2, ?_, by decide⟩
  rw [h2]
  exact List.filter_sublist L

/-- C8: the reporter line of a rendered incident row appears only when
the viewing profile is present with role `authority`; for a `citizen`
viewer (or an absent viewing profile) the rendered row is independent
of the reporter's name even when a reporting profile is joined. -/
theorem reporter_visibility (viewer : Option ProfileRow) (inc : Incident)
    (n1 n2 : String) :
    ((renderRow viewer inc).reporterLine ≠ none →
      ∃ v, viewer = some v ∧ v.role = .authority)
    ∧ ((∀ v, viewer = some v → v.role = .citizen) →
      renderRow viewer (setReporterName inc n1)
        = renderRow viewer (setReporterName inc n2)) := by
  constructor
  · intro h
    cases hv : viewer with
    | none =>
      rw [hv] at h
      simp [renderRow] at h
    | some v =>
      refine ⟨v, rfl, ?_⟩
      rw [hv] at h
      cases hrole : v.role with
      | citizen => simp [renderRow, hrole] at h
      | authority => rfl
  · intro hcit
    cases hv : viewer with
    | none => simp [renderRow, setReporterName]
    | some v =>
      have hrole : v.role = .citizen := hcit v hv
      simp [renderRow, setReporterName, hrole]

/-- C8 witness: an authority viewer makes the destructor succeed on a
row whose reporter line is rendered, and a citizen viewer renders the
same row for two different reporter names. -/
theorem reporter_visibility_witness :
    (∃ v, (some authorityViewer : Option ProfileRow) = some v ∧ v.role = .authority)
    ∧ renderRow (some citizenViewer) (setReporterName incWithReporter "Nombre Uno")
        = renderRow (some citizenViewer) (setReporterName incWithReporter "Nombre Dos") :=
  ⟨(reporter_visibility (some authorityViewer) incWithReporter "x" "y").1 (by decide),
   (reporter_visibility (some citizenViewer) incWithReporter "Nombre Uno" "Nombre Dos").2
     (by intro v hv; cases Option.some_inj.mp hv; rfl)⟩

/-- C9: an auth-state-change notification carrying no session leaves
the profile absent and the loading flag false. -/
theorem authChange_noSession (fetchProfile : String → Except String (Option ProfileRow))
    (st : AuthState) :
    (onAuthStateChange fetchProfile none st).profile = none
    ∧ (onAuthStateChange fetchProfile none st).loading = false := by
  simp [onAuthStateChange]

/-- C1 counterexample: a transition to a new session (user-b) whose
profile re-fetch fails keeps the previous user's profile attached — the
profile does not become absent as the claim states. -/
theorem authChange_staleProfile_cex :
    (onAuthStateChange failFetch (some newSession) prevState).profile = some prevProfile
    ∧ (onAuthStateChange failFetch (some newSession) prevState).profile ≠ none := by
  constructor
  · decide
  · decide

/-- C1 (amended): after every auth-state-change transition the loading
flag is false; with no session the profile becomes absent; with a
session, when the profile re-fetch succeeds the profile is exactly the
fetch result, but when the re-fetch fails the profile retains its
previous value instead of becoming absent. -/
theorem authChange_amended (fetchProfile : String → Except String (Option ProfileRow))
    (session : Option Session) (st : AuthState) :
    (onAuthStateChange fetchProfile session st).loading = false
    ∧ (session = none → (onAuthStateChange fetchProfile session st).profile = none)
    ∧ (∀ s, session = some s →
        (onAuthStateChange fetchProfile session st).profile =
          (match fetchProfile s.user.id with
           | .ok d => d
           | .error _ => st.profile)) := by
  refine ⟨?_, ?_, ?_⟩
  · cases session with
    | none => simp [onAuthStateChange]
    | some s =>
      simp only [onAuthStateChange, loadProfile]
      cases h : fetchProfile s.user.id <;> simp [h]
  · intro h
    subst h
    simp [onAuthStateChange]
  · intro s hs
    subst hs
    simp only [onAuthStateChange, loadProfile]
    cases h : fetchProfile s.user.id <;> simp [h]

/-- C1 witness: the amended theorem applied to the failing re-fetch
transition of the counterexample state. -/
theorem authChange_amended_witness :
    (onAuthStateChange failFetch (some newSession) prevState).loading = false
    ∧ (onAuthStateChange failFetch (some newSession) prevState).profile
        = prevState.profile := by
  refine ⟨(authChange_amended failFetch (some newSession) prevState).1, ?_⟩
  have h := (authChange_amended failFetch (some newSession) prevState).2.2 newSession rfl
  simpa [failFetch] using h

/-- C2: a sign-up against an email whose profile exists and is not
soft-deleted fails with the duplicate-account error, issues no backend
mutation (no credential registration, no insert, no update), and
leaves the row store untouched. -/
theorem signUp_duplicate (authResult : Except String (Option AuthUser))
    (email password fullName : String) (phone : Option String)
    (bk : Backend) (p : ProfileRow)
    (hfind : bk.profiles.filter (fun r => r.email == email) = [p])
    (hlive : p.is_deleted = false) :
    (signUp authResult email password fullName phone bk).result = .error dupMsg
    ∧ (signUp authResult email password fullName phone bk).effects = []
    ∧ (signUp authResult email password fullName phone bk).backend = bk := by
  simp [signUp, hfind, maybeSingle, hlive, orElseMsg_dup]

/-- C2 witness: the duplicate path on a concrete one-row store. -/
theorem signUp_duplicate_witness :
    (signUp (.ok none) "dup@example.com" "pw" "New Name" none bkDup).result
        = .error dupMsg
    ∧ (signUp (.ok none) "dup@example.com" "pw" "New Name" none bkDup).effects = []
    ∧ (signUp (.ok none) "dup@example.com" "pw" "New Name" none bkDup).backend = bkDup :=
  signUp_duplicate (.ok none) "dup@example.com" "pw" "New Name" none bkDup dupRow
    (by decide) (by decide)

/-- C3: a sign-up against an email whose profile exists soft-deleted,
with successful credential registration returning a user, succeeds and
revives the row in place: the update targets the original id, sets
is_deleted false and deleted_at null, overwrites full_name and phone
(phone normalized by `phone || null`), and no new row is inserted. -/
theorem signUp_revive (u : AuthUser) (email password fullName : String)
    (phone : Option String) (bk : Backend) (p : ProfileRow)
    (hfind : bk.profiles.filter (fun r => r.email == email) = [p])
    (hdel : p.is_deleted = true) :
    (signUp (.ok (some u)) email password fullName phone bk).result = .ok ()
    ∧ (signUp (.ok (some u)) email password fullName phone bk).effects
        = [.authRegister email password,
           .profileUpdate p.id fullName (phoneOrNull phone)]
    ∧ (signUp (.ok (some u)) email password fullName phone bk).backend.profiles
        = bk.profiles.map (fun r =>
            if r.id == p.id then
              { r with full_name := fullName, phone := phoneOrNull phone,
                       is_deleted := false, deleted_at := none }
            else r)
    ∧ ((signUp (.ok (some u)) email password fullName phone bk).backend.profiles).length
        = bk.profiles.length := by
  simp [signUp, hfind, maybeSingle, hdel, signUpAfterCheck]

/-- C3 witness: the revive path on a concrete store holding one
soft-deleted row. -/
theorem signUp_revive_witness :
    (signUp (.ok (some ⟨"uid-new"⟩)) "del@example.com" "pw" "Fresh Name"
        (some "777") bkDel).result = .ok ()
    ∧ (signUp (.ok (some ⟨"uid-new"⟩)) "del@example.com" "pw" "Fresh Name"
        (some "777") bkDel).effects
        = [.authRegister "del@example.com" "pw",
           .profileUpdate delRow.id "Fresh Name" (phoneOrNull (some "777"))]
    ∧ (signUp (.ok (some ⟨"uid-new"⟩)) "del@example.com" "pw" "Fresh Name"
        (some "777") bkDel).backend.profiles
        = bkDel.profiles.map (fun r =>
            if r.id == delRow.id then
              { r with full_name := "Fresh Name", phone := phoneOrNull (some "777"),
                       is_deleted := false, deleted_at := none }
            else r)
    ∧ ((signUp (.ok (some ⟨"uid-new"⟩)) "del@example.com" "pw" "Fresh Name"
        (some "777") bkDel).backend.profiles).length = bkDel.profiles.length :=
  signUp_revive ⟨"uid-new"⟩ "del@example.com" "pw" "Fresh Name" (some "777") bkDel delRow
    (by decide) (by decide)

/-- C10: the revive update leaves every row's id, email and role
unchanged — only full_name, phone, is_deleted and deleted_at are
written — so a revived profile keeps whatever role it had. -/
theorem signUp_revive_frame (u : AuthUser) (email password fullName : String)
    (phone : Option String) (bk : Backend) (p : ProfileRow)
    (hfind : bk.profiles.filter (fun r => r.email == email) = [p])
    (hdel : p.is_deleted = true) :
    (signUp (.ok (some u)) email password fullName phone bk).backend.profiles.map
        (fun r => (r.id, r.email, r.role))
      = bk.profiles.map (fun r => (r.id, r.email, r.role)) := by
  have hred : (signUp (.ok (some u)) email password fullName phone bk).backend.profiles
      = bk.profiles.map (fun r =>
          if r.id == p.id then
            { r with full_name := fullName, phone := phoneOrNull phone,
                     is_deleted := false, deleted_at := none }
          else r) := by
    simp [signUp, hfind, maybeSingle, hdel, signUpAfterCheck]
  rw [hred, List.map_map]
  refine List.map_eq_map_iff.mpr (fun r _ => ?_)
  by_cases h : r.id = p.id <;> simp [h]

/-- C10 witness: reviving a soft-deleted authority profile keeps its
id, email and `authority` role. -/
theorem signUp_revive_frame_witness :
    (signUp (.ok (some ⟨"uid-9"⟩)) "auth@example.com" "pw" "Nuevo Nombre"
        (some "222") bkAuth).backend.profiles.map (fun r => (r.id, r.email, r.role))
      = bkAuth.profiles.map (fun r => (r.id, r.email, r.role)) :=
  signUp_revive_frame ⟨"uid-9"⟩ "auth@example.com" "pw" "Nuevo Nombre" (some "222")
    bkAuth authRow (by decide) (by decide)

end Chepen
